import Mathlib

/-!
Shallow embedding of the arrival-card issuance backend (src/server.js) and
proofs of the specification claims about it.  The HTTP handler
`POST /api/create` is modelled as the pure function `apiCreate` from a
request value and an environment (the results the external collaborators
return) to a response together with the trace of side effects performed.
-/

namespace ArrivalApp

/-- Models a JSON field inspected by the zod schemas: the field can be absent
(undefined), null, or a string. -/
inductive JStr where
  | missing : JStr
  | null : JStr
  | str (s : String) : JStr
deriving Repr, DecidableEq

/-- Models a JSON field holding an array of strings (the health section's
countries list): absent, null, or an array. -/
inductive JArr where
  | missing : JArr
  | null : JArr
  | arr (l : List String) : JArr
deriving Repr, DecidableEq

/-- Raw `personalInfo` section of the request body, before validation. -/
structure RawPersonalInfo where
  family_name : JStr
  first_name : JStr
  middle_name : JStr
  passport_no : JStr
  selected_nationality : JStr
  occupation : JStr
  gender : JStr
  visa_no : JStr
  selected_country : JStr
  selected_city : JStr
  phone_no_code : JStr
  phone_no : JStr
  date_of_birth : JStr
deriving Repr, DecidableEq

/-- Raw `tripInfo` section of the request body, before validation. -/
structure RawTripInfo where
  date_of_arrival : JStr
  country_boarded : JStr
  purpose_of_travel : JStr
  purpose_of_travel_other : JStr
  mode_of_travel_arrival : JStr
  mode_of_transport_arrival : JStr
  mode_of_transport_arrival_other : JStr
  flight_vehicle_no_arrival : JStr
  date_of_departure : JStr
  mode_of_travel_departure : JStr
  mode_of_transport_departure : JStr
  mode_of_transport_departure_other : JStr
  flight_vehicle_no_departure : JStr
  type_of_accommodation : JStr
  type_other : JStr
  province : JStr
  district_area : JStr
  sub_district : JStr
  post_code : JStr
  address : JStr
deriving Repr, DecidableEq

/-- Raw `health` section of the request body, before validation. -/
structure RawHealth where
  countries_visited : JArr
deriving Repr, DecidableEq

/-- Validated output of `personalInfoSchema` (zod `safeParse` success data). -/
structure PersonalData where
  family_name : String
  first_name : String
  middle_name : Option String
  passport_no : String
  selected_nationality : String
  occupation : String
  gender : String
  visa_no : Option String
  selected_country : String
  selected_city : String
  phone_no_code : String
  phone_no : String
  date_of_birth : String
deriving Repr, DecidableEq

/-- Validated output of `tripAccommodationSchema`. -/
structure TripData where
  date_of_arrival : String
  country_boarded : String
  purpose_of_travel : String
  purpose_of_travel_other : Option String
  mode_of_travel_arrival : String
  mode_of_transport_arrival : String
  mode_of_transport_arrival_other : Option String
  flight_vehicle_no_arrival : String
  date_of_departure : Option String
  mode_of_travel_departure : Option String
  mode_of_transport_departure : Option String
  mode_of_transport_departure_other : Option String
  flight_vehicle_no_departure : Option String
  type_of_accommodation : String
  type_other : Option String
  province : String
  district_area : String
  sub_district : String
  post_code : String
  address : String
deriving Repr, DecidableEq

/-- Result of a zod `safeParse`: either the parsed data or the flattened
field-error map (field name to list of violation messages). -/
inductive ZRes (α : Type) where
  | ok (a : α)
  | errs (es : List (String × List String))
deriving Repr, DecidableEq

/-- Field errors of a `safeParse` result; an empty map when it succeeded
(matching the code's fallback to the empty object). -/
def ZRes.fieldErrors : ZRes α → List (String × List String)
  | .ok _ => []
  | .errs es => es

/-- Whether a `safeParse` result succeeded. -/
def ZRes.success : ZRes α → Bool
  | .ok _ => true
  | .errs _ => false

/-- Error-accumulating application, matching zod's collection of issues for
every failing key of an object schema. -/
def ZRes.ap : ZRes (α → β) → ZRes α → ZRes β
  | .ok f, .ok a => .ok (f a)
  | .ok _, .errs es => .errs es
  | .errs es, .ok _ => .errs es
  | .errs es, .errs fs => .errs (es ++ fs)

/-- Validator for `z.string()`: a string is required, null is rejected. -/
def zString : JStr → Except (List String) String
  | .missing => .error ["Required"]
  | .null => .error ["Expected string, received null"]
  | .str s => .ok s

/-- Validator for `z.string().min(1)`. -/
def zStringMin1 : JStr → Except (List String) String
  | .missing => .error ["Required"]
  | .null => .error ["Expected string, received null"]
  | .str s =>
    if s.length = 0 then .error ["String must contain at least 1 character(s)"]
    else .ok s

/-- Validator for `z.string().optional()`: absent is allowed, null is not. -/
def zStringOpt : JStr → Except (List String) (Option String)
  | .missing => .ok none
  | .null => .error ["Expected string, received null"]
  | .str s => .ok (some s)

/-- Validator for `z.string().nullable().optional()`. -/
def zStringNullOpt : JStr → Except (List String) (Option String)
  | .missing => .ok none
  | .null => .ok none
  | .str s => .ok (some s)

/-- Tags a single field's validation result with its field name. -/
def zField (name : String) : Except (List String) α → ZRes α
  | .ok a => .ok a
  | .error es => .errs [(name, es)]

/-- The `personalInfoSchema` zod object schema applied via `safeParse`. -/
def personalInfoSchema (r : RawPersonalInfo) : ZRes PersonalData :=
  let z01 := (ZRes.ok PersonalData.mk).ap (zField "family_name" (zStringMin1 r.family_name))
  let z02 := z01.ap (zField "first_name" (zStringMin1 r.first_name))
  let z03 := z02.ap (zField "middle_name" (zStringOpt r.middle_name))
  let z04 := z03.ap (zField "passport_no" (zStringMin1 r.passport_no))
  let z05 := z04.ap (zField "selected_nationality" (zString r.selected_nationality))
  let z06 := z05.ap (zField "occupation" (zString r.occupation))
  let z07 := z06.ap (zField "gender" (zString r.gender))
  let z08 := z07.ap (zField "visa_no" (zStringOpt r.visa_no))
  let z09 := z08.ap (zField "selected_country" (zString r.selected_country))
  let z10 := z09.ap (zField "selected_city" (zString r.selected_city))
  let z11 := z10.ap (zField "phone_no_code" (zString r.phone_no_code))
  let z12 := z11.ap (zField "phone_no" (zString r.phone_no))
  z12.ap (zField "date_of_birth" (zString r.date_of_birth))

/-- The `tripAccommodationSchema` zod object schema applied via `safeParse`. -/
def tripAccommodationSchema (r : RawTripInfo) : ZRes TripData :=
  let z01 := (ZRes.ok TripData.mk).ap (zField "date_of_arrival" (zString r.date_of_arrival))
  let z02 := z01.ap (zField "country_boarded" (zString r.country_boarded))
  let z03 := z02.ap (zField "purpose_of_travel" (zString r.purpose_of_travel))
  let z04 := z03.ap (zField "purpose_of_travel_other" (zStringNullOpt r.purpose_of_travel_other))
  let z05 := z04.ap (zField "mode_of_travel_arrival" (zString r.mode_of_travel_arrival))
  let z06 := z05.ap (zField "mode_of_transport_arrival" (zString r.mode_of_transport_arrival))
  let z07 := z06.ap (zField "mode_of_transport_arrival_other" (zStringNullOpt r.mode_of_transport_arrival_other))
  let z08 := z07.ap (zField "flight_vehicle_no_arrival" (zString r.flight_vehicle_no_arrival))
  let z09 := z08.ap (zField "date_of_departure" (zStringNullOpt r.date_of_departure))
  let z10 := z09.ap (zField "mode_of_travel_departure" (zStringNullOpt r.mode_of_travel_departure))
  let z11 := z10.ap (zField "mode_of_transport_departure" (zStringNullOpt r.mode_of_transport_departure))
  let z12 := z11.ap (zField "mode_of_transport_departure_other" (zStringNullOpt r.mode_of_transport_departure_other))
  let z13 := z12.ap (zField "flight_vehicle_no_departure" (zStringNullOpt r.flight_vehicle_no_departure))
  let z14 := z13.ap (zField "type_of_accommodation" (zString r.type_of_accommodation))
  let z15 := z14.ap (zField "type_other" (zStringNullOpt r.type_other))
  let z16 := z15.ap (zField "province" (zString r.province))
  let z17 := z16.ap (zField "district_area" (zString r.district_area))
  let z18 := z17.ap (zField "sub_district" (zString r.sub_district))
  let z19 := z18.ap (zField "post_code" (zString r.post_code))
  z19.ap (zField "address" (zString r.address))

/-- The `healthSchema` zod object schema applied via `safeParse`:
`countries_visited` is `z.array(z.string()).min(1, msg)`. -/
def healthSchema (r : RawHealth) : ZRes (List String) :=
  match r.countries_visited with
  | .missing => .errs [("countries_visited", ["Required"])]
  | .null => .errs [("countries_visited", ["Expected array, received null"])]
  | .arr l =>
    if l.length < 1 then .errs [("countries_visited", ["Please select at least one country"])]
    else .ok l

/-- Splits a character list on the dash separator. -/
def splitDash : List Char → List (List Char)
  | [] => [[]]
  | c :: rest =>
    match splitDash rest with
    | [] => []
    | h :: t => if c = '-' then [] :: h :: t else (c :: h) :: t

/-- Reads a run of decimal digits as a number. -/
def parseNatAux : List Char → Nat → Option Nat
  | [], acc => some acc
  | c :: rest, acc =>
    if c.isDigit then parseNatAux rest (acc * 10 + (c.toNat - 48)) else none

/-- Reads a nonempty all-digit character list as a number. -/
def parseNatList (l : List Char) : Option Nat :=
  match l with
  | [] => none
  | _ => parseNatAux l 0

/-- The `formatDate` helper parses a date string of the shape Y-M-D; it models
the `new Date(s)` component extraction used by the code. -/
def parseDate (s : String) : Option (Nat × Nat × Nat) :=
  match (splitDash s.data).map parseNatList with
  | [some y, some m, some d] => some (y, m, d)
  | _ => none

/-- The `formatDate` helper of server.js: a falsy (absent or empty) date
string renders as a dash, otherwise the date renders as year/month/day with
the month and day printed without zero padding. -/
def formatDate (s : String) : String :=
  if s = "" then "-"
  else
    match parseDate s with
    | some (y, m, d) => Nat.repr y ++ "/" ++ Nat.repr m ++ "/" ++ Nat.repr d
    | none => "NaN/NaN/NaN"

/-- Application of `formatDate` to a nullable field: in the code a null or
undefined field is falsy, so it renders as the dash. -/
def formatDateOpt : Option String → String
  | none => "-"
  | some s => formatDate s

/-- Request body of `POST /api/create`: the three input sections. -/
structure Request where
  personalInfo : RawPersonalInfo
  tripInfo : RawTripInfo
  health : RawHealth
deriving Repr, DecidableEq

/-- The `countries_visited` value the code reads directly off the raw health
section (`health.countries_visited`) when building `travelData`. -/
def rawCountries (h : RawHealth) : List String :=
  match h.countries_visited with
  | .arr l => l
  | _ => []

/-- Row inserted into `travel_information`: the validated trip record spread
together with the `countries_visited` field. -/
structure TravelInsert extends TripData where
  countries_visited : List String
deriving Repr, DecidableEq

/-- Row inserted into `entry_form` (the `finalData` object). -/
structure FinalData where
  profile_id : Nat
  tr_id : Nat
  filepath : String
  qrcode_data : String
  arrival_card_no : String
deriving Repr, DecidableEq

/-- Row returned by a supabase insert: the payload together with the
generated identity. -/
structure Row (α : Type) where
  id : Nat
  data : α
deriving Repr, DecidableEq

/-- Result of the uniqueness-check lookup on `entry_form`: a row was found,
no row was found (supabase error code PGRST116), or the lookup failed for
another reason. -/
inductive LookupRes where
  | found : LookupRes
  | notFound : LookupRes
  | failure (msg : String) : LookupRes
deriving Repr, DecidableEq

/-- Payload of a durable insert performed by the handler. -/
inductive Payload where
  | profile (d : PersonalData)
  | travel (d : TravelInsert)
  | entry (d : FinalData)
deriving Repr, DecidableEq

/-- Side effect performed by the handler, in order.  An `insert` records the
target table, the payload and the generated identity (`none` when the insert
failed).  `delRow` would be a compensating delete; the handler never emits
one. -/
inductive Event where
  | insert (table : String) (p : Payload) (result : Option Nat)
  | lookupCard (cand : String)
  | render (doc : List (String × String))
  | upload (key : String) (ok : Bool)
  | delRow (table : String) (rowId : Nat)
deriving Repr, DecidableEq

/-- Error map of the 400 response, keyed by section name. -/
structure ErrMap where
  personalInfo : List (String × List String)
  tripInfo : List (String × List String)
  health : List (String × List String)
deriving Repr, DecidableEq

/-- Body of the HTTP response. -/
inductive Body where
  | invalid (errors : ErrMap)
  | failed (message : String)
  | completed (profile : Row PersonalData) (travel : Row TravelInsert) (entry : Row FinalData)
      (uniqueId : String) (pdfUrl : String) (arrivalCardNo : String)
deriving Repr, DecidableEq

/-- The `success` flag of the JSON response body. -/
def Body.success : Body → Bool
  | .completed _ _ _ _ _ _ => true
  | _ => false

/-- HTTP response: status code and JSON body. -/
structure Resp where
  status : Nat
  body : Body
deriving Repr, DecidableEq

/-- Environment of one request: the outcomes the external collaborators
(relational store, object store, random source, uuid source, clock) produce.
`rand i` is the i-th draw of `Math.random() * 90000` floored, `lookup i` the
outcome of the uniqueness check on the i-th candidate. -/
structure Env where
  profileRes : Except String Nat
  travelRes : Except String Nat
  entryRes : Except String Nat
  lookup : Nat → LookupRes
  rand : Nat → Fin 90000
  store : List String
  uploadOther : Option String
  uniqueId : String
  publicUrlOf : String → String
  now : String

/-- Candidate arrival-card number:
`Math.floor(10000 + Math.random() * 90000).toString()`. -/
def genCandidate (r : Fin 90000) : String := Nat.repr (10000 + r.val)

/-- Outcome of the allocation loop. -/
inductive AllocRes where
  | committed (card : String)
  | exhausted
  | fatal (msg : String)
deriving Repr, DecidableEq

/-- The bounded collision-retry loop of the handler.  `i` is the current draw
index; `fuel` is `maxAttempts - attempts`, which starts at 10.  A not-found
lookup commits to the candidate; any other lookup failure is fatal at once; a
found row consumes one attempt and redraws. -/
def allocLoop (lookup : Nat → LookupRes) (rand : Nat → Fin 90000) :
    Nat → Nat → AllocRes × List Event
  | _, 0 => (.exhausted, [])
  | i, fuel + 1 =>
    let card := genCandidate (rand i)
    match lookup i with
    | .notFound => (.committed card, [.lookupCard card])
    | .failure m =>
      (.fatal ("Failed to verify arrival card number: " ++ m), [.lookupCard card])
    | .found =>
      let rest := allocLoop lookup rand (i + 1) fuel
      (rest.1, .lookupCard card :: rest.2)

/-- The `.toUpperCase()` string method: character-wise upper-casing. -/
def jsToUpper (s : String) : String := ⟨s.data.map Char.toUpper⟩

/-- The `.trim()` string method: strips leading and trailing whitespace. -/
def jsTrim (s : String) : String :=
  ⟨(((s.data.dropWhile Char.isWhitespace).reverse).dropWhile Char.isWhitespace).reverse⟩

/-- The rendered document, modelled as the ordered list of drawing items the
handler emits: `("text", s)` for an unlabeled text call, `("image", s)` and
`("qr", payload)` for images, and `(label, value)` for each `drawField`
call.  Transcribed from the pdfkit calls of server.js. -/
def renderDoc (personalData : PersonalData) (tripData : TripData)
    (arrivalCardNo : String) (uniqueId : String) (transactionDate : String) :
    List (String × String) :=
  [("image", "./public/govLogo.jpg"),
   ("text", "Thank you for using the Thailand Digital Arrival Card. " ++
     "This Thailand Digital Arrival Card is only valid for one time use for travel on the expected date of " ++
     "arrival indicated below. You may choose to download or print a copy of this and retain it for the duration of " ++
     "your stay. Please note that the Thailand Digital Arrival Card is not a visa. The use of the Thailand Digital " ++
     "Arrival Card e-Service is free of charge."),
   ("text", "Kindly ensure that the information provided is accurate and aligns with your travel documents " ++
     "to avoid any issues upon your arrival in Thailand."),
   ("text", "You can update your Thailand Digital Arrival Card information through the official " ++
     "website at https://tdac.immigration.go.th/arrival-card or by scanning the QR code " ++
     "provided below, before entering Thailand. For more information on Thailand's entry " ++
     "requirements, please visit the official website."),
   ("qr", uniqueId),
   ("text", "To update your information or for further assistance, please scan the QR code"),
   ("text", "Transaction Date: " ++ transactionDate),
   ("text", jsToUpper (jsTrim (personalData.first_name ++ " " ++ personalData.family_name))),
   ("text", "Date of Arrival                         " ++
     formatDate tripData.date_of_arrival ++ "  "),
   ("qr", uniqueId),
   ("text", "TH Digital Arrival Card No."),
   ("text", "Passport No."),
   ("text", "Flight No./Vehicle No."),
   ("text", jsToUpper arrivalCardNo),
   ("text", jsToUpper personalData.passport_no),
   ("text", jsToUpper tripData.flight_vehicle_no_arrival),
   ("text", "TH Digital Arrival Card No.  " ++ arrivalCardNo),
   ("text", "Personal Information"),
   ("Full Name ", jsToUpper (jsTrim (personalData.first_name ++ " " ++
     (personalData.middle_name.getD "") ++ " " ++ personalData.family_name))),
   ("Gender :", jsToUpper personalData.gender),
   ("Nationality/Citizenship :", jsToUpper personalData.selected_nationality),
   ("Passport No. :", jsToUpper personalData.passport_no),
   ("Date of Birth :", formatDate personalData.date_of_birth),
   ("Occupation :", jsToUpper personalData.occupation),
   ("Country/Territory of Residence :", jsToUpper personalData.selected_country),
   ("City/State of Residence :", jsToUpper personalData.selected_city),
   ("Visa No. :", jsToUpper (personalData.visa_no.getD "-")),
   ("Phone No. :", "+" ++ personalData.phone_no_code ++ " " ++ personalData.phone_no),
   ("text", "Trip Information"),
   ("text", "Arrival Information"),
   ("Date of Arrival :", formatDate tripData.date_of_arrival),
   ("Country Boarded :", jsToUpper tripData.country_boarded),
   ("Purpose of Travel :", jsToUpper tripData.purpose_of_travel),
   ("Mode of Travel :", jsToUpper tripData.mode_of_travel_arrival),
   ("Mode of Transport :", jsToUpper tripData.mode_of_transport_arrival),
   ("Flight No./Vehicle No. :", jsToUpper tripData.flight_vehicle_no_arrival),
   ("text", "Departure Information"),
   ("Date of Departure :", formatDateOpt tripData.date_of_departure),
   ("Mode of Travel :", jsToUpper (tripData.mode_of_travel_departure.getD "-")),
   ("Mode of Transport :", jsToUpper (tripData.mode_of_transport_departure.getD "-")),
   ("Flight No./Vehicle No. :", jsToUpper (tripData.flight_vehicle_no_departure.getD "-")),
   ("text", "Accommodation Information"),
   ("Type of Accommodation :", jsToUpper tripData.type_of_accommodation),
   ("Post Code :", tripData.post_code),
   ("Address :", jsToUpper (tripData.province ++ ", " ++ tripData.district_area ++ ", " ++
     tripData.sub_district ++ ", ") ++ tripData.address)]

/-- Modelled from the spec: the object-storage collaborator's upload-if-absent
operation (the code calls `supabase.storage.upload` with `upsert: false`).
An upload under a key that already exists is rejected and leaves the store
unchanged; otherwise the object is stored under the key. -/
def uploadPdf (store : List String) (fileName : String) :
    Except String (List String) :=
  if store.contains fileName then .error "The resource already exists"
  else .ok (fileName :: store)

/-- Modelled from the spec: outcome of the upload call in one request.  The
collaborator can also fail for a reason unrelated to the key (for example a
network error), which `uploadOther` injects; otherwise the upload-if-absent
semantics of `uploadPdf` applies to the store contents. -/
def uploadAttempt (env : Env) (fileName : String) : Except String (List String) :=
  match env.uploadOther with
  | some m => .error m
  | none => uploadPdf env.store fileName

/-- Stage of the handler after all three sections validated: the insert,
allocation, rendering, upload and linkage steps, with the catch block mapping
any thrown error to a 500 response.  Returns the response and the ordered
side-effect trace. -/
def afterValidation (env : Env) (personalData : PersonalData) (tripData : TripData)
    (countries : List String) : Resp × List Event :=
  match env.profileRes with
  | .error m => (⟨500, .failed m⟩, [.insert "profiles" (.profile personalData) none])
  | .ok profileId =>
    let travelData : TravelInsert := { toTripData := tripData, countries_visited := countries }
    match env.travelRes with
    | .error m =>
      (⟨500, .failed m⟩,
       [.insert "profiles" (.profile personalData) (some profileId),
        .insert "travel_information" (.travel travelData) none])
    | .ok trId =>
      let alloc := allocLoop env.lookup env.rand 0 10
      let evs0 : List Event :=
        [.insert "profiles" (.profile personalData) (some profileId),
         .insert "travel_information" (.travel travelData) (some trId)] ++ alloc.2
      match alloc.1 with
      | .exhausted =>
        (⟨500, .failed "Failed to generate unique arrival card number after maximum attempts"⟩,
         evs0)
      | .fatal m => (⟨500, .failed m⟩, evs0)
      | .committed arrivalCardNo =>
        let docItems := renderDoc personalData tripData arrivalCardNo env.uniqueId
          (formatDate env.now)
        let fileName := env.uniqueId ++ ".pdf"
        match uploadAttempt env fileName with
        | .error m =>
          (⟨500, .failed ("Failed to upload PDF: " ++ m)⟩,
           evs0 ++ [.render docItems, .upload fileName false])
        | .ok _ =>
          let publicUrl := env.publicUrlOf fileName
          let finalData : FinalData :=
            { profile_id := profileId, tr_id := trId, filepath := publicUrl,
              qrcode_data := env.uniqueId, arrival_card_no := arrivalCardNo }
          match env.entryRes with
          | .error m =>
            (⟨500, .failed ("Failed to insert into database: " ++ m)⟩,
             evs0 ++ [.render docItems, .upload fileName true,
               .insert "entry_form" (.entry finalData) none])
          | .ok entryId =>
            (⟨200, .completed ⟨profileId, personalData⟩ ⟨trId, travelData⟩
               ⟨entryId, finalData⟩ env.uniqueId publicUrl arrivalCardNo⟩,
             evs0 ++ [.render docItems, .upload fileName true,
               .insert "entry_form" (.entry finalData) (some entryId)])

/-- The `POST /api/create` handler: validate the three sections, fail fast
with a 400 error map when any section fails, otherwise run the persistence,
allocation, rendering, upload and linkage workflow. -/
def apiCreate (req : Request) (env : Env) : Resp × List Event :=
  let validationPI := personalInfoSchema req.personalInfo
  let validationTR := tripAccommodationSchema req.tripInfo
  let validationH := healthSchema req.health
  match validationPI, validationTR, validationH with
  | .ok personalData, .ok tripData, .ok _ =>
    afterValidation env personalData tripData (rawCountries req.health)
  | vPI, vTR, vH =>
    (⟨400, .invalid ⟨vPI.fieldErrors, vTR.fieldErrors, vH.fieldErrors⟩⟩, [])

/-- Sample raw personal section (the end-to-end example of the spec). -/
def sampleRawPI : RawPersonalInfo :=
  { family_name := .str "Doe", first_name := .str "Jane", middle_name := .missing,
    passport_no := .str "X1234567", selected_nationality := .str "US",
    occupation := .str "Engineer", gender := .str "F", visa_no := .missing,
    selected_country := .str "US", selected_city := .str "NYC",
    phone_no_code := .str "1", phone_no := .str "5551234",
    date_of_birth := .str "1990-05-01" }

/-- Sample raw trip section (the end-to-end example of the spec). -/
def sampleRawTR : RawTripInfo :=
  { date_of_arrival := .str "2024-06-01", country_boarded := .str "US",
    purpose_of_travel := .str "Tourism", purpose_of_travel_other := .missing,
    mode_of_travel_arrival := .str "Air", mode_of_transport_arrival := .str "Airplane",
    mode_of_transport_arrival_other := .missing,
    flight_vehicle_no_arrival := .str "TG123", date_of_departure := .missing,
    mode_of_travel_departure := .missing, mode_of_transport_departure := .missing,
    mode_of_transport_departure_other := .missing, flight_vehicle_no_departure := .missing,
    type_of_accommodation := .str "Hotel", type_other := .missing,
    province := .str "Bangkok", district_area := .str "Pathumwan",
    sub_district := .str "Lumphini", post_code := .str "10330",
    address := .str "123 Road" }

/-- Sample request combining the three sections. -/
def sampleReq : Request :=
  { personalInfo := sampleRawPI, tripInfo := sampleRawTR,
    health := { countries_visited := .arr ["US"] } }

/-- Validated personal data of the sample request. -/
def samplePersonal : PersonalData :=
  { family_name := "Doe", first_name := "Jane", middle_name := none,
    passport_no := "X1234567", selected_nationality := "US",
    occupation := "Engineer", gender := "F", visa_no := none,
    selected_country := "US", selected_city := "NYC",
    phone_no_code := "1", phone_no := "5551234", date_of_birth := "1990-05-01" }

/-- Validated trip data of the sample request. -/
def sampleTrip : TripData :=
  { date_of_arrival := "2024-06-01", country_boarded := "US",
    purpose_of_travel := "Tourism", purpose_of_travel_other := none,
    mode_of_travel_arrival := "Air", mode_of_transport_arrival := "Airplane",
    mode_of_transport_arrival_other := none, flight_vehicle_no_arrival := "TG123",
    date_of_departure := none, mode_of_travel_departure := none,
    mode_of_transport_departure := none, mode_of_transport_departure_other := none,
    flight_vehicle_no_departure := none, type_of_accommodation := "Hotel",
    type_other := none, province := "Bangkok", district_area := "Pathumwan",
    sub_district := "Lumphini", post_code := "10330", address := "123 Road" }

/-- Sample environment in which every collaborator call succeeds and the
first candidate is free. -/
def sampleEnv : Env :=
  { profileRes := .ok 1, travelRes := .ok 2, entryRes := .ok 3,
    lookup := fun _ => .notFound, rand := fun _ => ⟨0, by decide⟩,
    store := [], uploadOther := none, uniqueId := "u1",
    publicUrlOf := fun s => "https://cdn/" ++ s, now := "2024-06-01" }

/-- Environment whose uniqueness oracle reports the first nine candidates as
taken and the tenth as free. -/
def nineTakenEnv : Env :=
  { sampleEnv with lookup := fun i => if i < 9 then .found else .notFound }

/-- Environment whose uniqueness oracle reports every candidate as taken. -/
def allTakenEnv : Env :=
  { sampleEnv with lookup := fun _ => .found }

/-- Length of the char list produced by `Nat.toDigitsCore` is at least the
length of its accumulator. -/
theorem length_le_toDigitsCore (b : Nat) :
    ∀ (f n : Nat) (l : List Char), l.length ≤ (Nat.toDigitsCore b f n l).length := by
  intro f
  induction f with
  | zero => intro n l; simp [Nat.toDigitsCore]
  | succ f ih =>
    intro n l
    simp only [Nat.toDigitsCore]
    split
    · simp
    · exact le_trans (by simp) (ih (n / b) (Nat.digitChar (n % b) :: l))

/-- Lower bound on the number of digits produced by `Nat.toDigitsCore`:
a number at least `b ^ e` yields at least `e + 1` digits. -/
theorem toDigitsCore_length_lower (b : Nat) (hb : 2 ≤ b) :
    ∀ (e f n : Nat) (l : List Char), b ^ e ≤ n → e + 1 ≤ f →
      e + 1 + l.length ≤ (Nat.toDigitsCore b f n l).length := by
  intro e
  induction e with
  | zero =>
    intro f n l _ hf
    match f, hf with
    | f + 1, _ =>
      simp only [Nat.toDigitsCore]
      split
      · simp [Nat.add_comm]
      · calc 0 + 1 + l.length = (Nat.digitChar (n % b) :: l).length := by
              simp [Nat.add_comm]
          _ ≤ _ := length_le_toDigitsCore b f (n / b) _
  | succ e ih =>
    intro f n l hn hf
    match f, hf with
    | f + 1, hf =>
      have hb0 : 0 < b := by omega
      have hdiv : b ^ e ≤ n / b := by
        rw [Nat.le_div_iff_mul_le hb0]
        calc b ^ e * b = b ^ (e + 1) := (Nat.pow_succ b e).symm
          _ ≤ n := hn
      have hpos : 0 < b ^ e := Nat.pos_pow_of_pos e hb0
      have hne : ¬(n / b = 0) := by omega
      simp only [Nat.toDigitsCore]
      split
      · omega
      · have h2 := ih f (n / b) (Nat.digitChar (n % b) :: l) hdiv (by omega)
        simp only [List.length_cons] at h2
        omega

/-- A natural number in the range of the candidate generator prints as a
five-character decimal string. -/
theorem repr_length_eq_five (n : Nat) (h1 : 10000 ≤ n) (h2 : n < 100000) :
    (Nat.repr n).length = 5 := by
  have upper : (Nat.repr n).length ≤ 5 := by
    have := Nat.repr_length n 5 (by decide) (by norm_num; omega)
    omega
  have lower : 5 ≤ (Nat.repr n).length := by
    have h := toDigitsCore_length_lower 10 (by decide) 4 (n + 1) n []
      (by norm_num; omega) (by omega)
    simpa [Nat.repr, Nat.toDigits, List.asString, String.length] using h
  omega

/-- Every candidate the allocator draws is a five-digit numeric string in the
range 10000 to 99999. -/
theorem genCandidate_shape (r : Fin 90000) :
    ∃ n, genCandidate r = Nat.repr n ∧ 10000 ≤ n ∧ n ≤ 99999 ∧
      (genCandidate r).length = 5 := by
  refine ⟨10000 + r.val, rfl, by omega, by have := r.isLt; omega, ?_⟩
  exact repr_length_eq_five _ (by omega) (by have := r.isLt; omega)

/-- Unfolding of one loop iteration whose lookup reports the candidate free. -/
theorem allocLoop_notFound (lookup : Nat → LookupRes) (rand : Nat → Fin 90000)
    (i fuel : Nat) (h : lookup i = .notFound) :
    allocLoop lookup rand i (fuel + 1) =
      (.committed (genCandidate (rand i)), [.lookupCard (genCandidate (rand i))]) := by
  simp [allocLoop, h]

/-- Unfolding of one loop iteration whose lookup fails for a reason other
than not-found. -/
theorem allocLoop_failure (lookup : Nat → LookupRes) (rand : Nat → Fin 90000)
    (i fuel : Nat) (m : String) (h : lookup i = .failure m) :
    allocLoop lookup rand i (fuel + 1) =
      (.fatal ("Failed to verify arrival card number: " ++ m),
       [.lookupCard (genCandidate (rand i))]) := by
  simp [allocLoop, h]

/-- Unfolding of one loop iteration whose lookup finds an existing row. -/
theorem allocLoop_found (lookup : Nat → LookupRes) (rand : Nat → Fin 90000)
    (i fuel : Nat) (h : lookup i = .found) :
    allocLoop lookup rand i (fuel + 1) =
      ((allocLoop lookup rand (i + 1) fuel).1,
       .lookupCard (genCandidate (rand i)) :: (allocLoop lookup rand (i + 1) fuel).2) := by
  simp [allocLoop, h]

/-- Every event the allocation loop emits is a uniqueness-check lookup. -/
theorem allocLoop_events (lookup : Nat → LookupRes) (rand : Nat → Fin 90000) :
    ∀ (fuel i : Nat) (e : Event), e ∈ (allocLoop lookup rand i fuel).2 →
      ∃ c, e = Event.lookupCard c := by
  intro fuel
  induction fuel with
  | zero => intro i e h; simp [allocLoop] at h
  | succ fuel ih =>
    intro i e h
    rcases hl : lookup i with _ | _ | m
    · rw [allocLoop_found lookup rand i fuel hl] at h
      rcases List.mem_cons.mp h with h1 | h2
      · exact ⟨_, h1⟩
      · exact ih (i + 1) e h2
    · rw [allocLoop_notFound lookup rand i fuel hl] at h
      exact ⟨_, by simpa using h⟩
    · rw [allocLoop_failure lookup rand i fuel m hl] at h
      exact ⟨_, by simpa using h⟩

/-- When every candidate is reported taken the loop exhausts its fuel, one
lookup per unit of fuel. -/
theorem allocLoop_all_found (lookup : Nat → LookupRes) (rand : Nat → Fin 90000)
    (hl : ∀ j, lookup j = .found) :
    ∀ (fuel i : Nat), (allocLoop lookup rand i fuel).1 = .exhausted ∧
      (allocLoop lookup rand i fuel).2.length = fuel := by
  intro fuel
  induction fuel with
  | zero => intro i; simp [allocLoop]
  | succ fuel ih =>
    intro i
    rw [allocLoop_found lookup rand i fuel (hl i)]
    exact ⟨(ih (i + 1)).1, by simp [(ih (i + 1)).2]⟩

/-- When the first `k` candidates are taken and the next one is free, the
loop commits to that candidate after `k + 1` lookups. -/
theorem allocLoop_success_at (lookup : Nat → LookupRes) (rand : Nat → Fin 90000)
    (k : Nat) :
    ∀ i fuel, (∀ j, j < k → lookup (i + j) = .found) → lookup (i + k) = .notFound →
      k < fuel →
      (allocLoop lookup rand i fuel).1 = .committed (genCandidate (rand (i + k))) ∧
      (allocLoop lookup rand i fuel).2.length = k + 1 := by
  induction k with
  | zero =>
    intro i fuel _ hk hfuel
    match fuel, hfuel with
    | fuel + 1, _ =>
      rw [allocLoop_notFound lookup rand i fuel (by simpa using hk)]
      simp
  | succ k ih =>
    intro i fuel hpre hk hfuel
    match fuel, hfuel with
    | fuel + 1, hfuel =>
      rw [allocLoop_found lookup rand i fuel (by simpa using hpre 0 (by omega))]
      have hidx : i + 1 + k = i + (k + 1) := by omega
      have hrec := ih (i + 1) fuel
        (fun j hj => by
          have := hpre (j + 1) (by omega)
          have hidx2 : i + 1 + j = i + (j + 1) := by omega
          rw [hidx2]; exact this)
        (by rw [hidx]; exact hk) (by omega)
      refine ⟨?_, by simp [hrec.2]⟩
      rw [hrec.1, hidx]

/-- Whatever the loop commits to is a generated candidate. -/
theorem allocLoop_committed_shape (lookup : Nat → LookupRes) (rand : Nat → Fin 90000) :
    ∀ (fuel i : Nat) (c : String), (allocLoop lookup rand i fuel).1 = .committed c →
      ∃ j, c = genCandidate (rand j) := by
  intro fuel
  induction fuel with
  | zero => intro i c h; simp [allocLoop] at h
  | succ fuel ih =>
    intro i c h
    rcases hl : lookup i with _ | _ | m
    · rw [allocLoop_found lookup rand i fuel hl] at h
      exact ih (i + 1) c h
    · rw [allocLoop_notFound lookup rand i fuel hl] at h
      exact ⟨i, by simpa using h.symm⟩
    · rw [allocLoop_failure lookup rand i fuel m hl] at h
      simp at h

/-- Unfolding equation of the handler: its body is the three-way match on the
validation results. -/
theorem apiCreate_eq (req : Request) (env : Env) :
    apiCreate req env =
      match personalInfoSchema req.personalInfo, tripAccommodationSchema req.tripInfo,
          healthSchema req.health with
      | .ok personalData, .ok tripData, .ok _ =>
        afterValidation env personalData tripData (rawCountries req.health)
      | vPI, vTR, vH =>
        (⟨400, .invalid ⟨vPI.fieldErrors, vTR.fieldErrors, vH.fieldErrors⟩⟩, []) := rfl

/-- C2: whenever at least one of the three input sections fails schema
validation, the response is HTTP 400 with success false and an error map
keyed by section name mapping field names to lists of violation messages,
and no durable write, card-number allocation, rendering or upload happens
before returning. -/
theorem claim2_validation_fail_fast (req : Request) (env : Env)
    (h : (personalInfoSchema req.personalInfo).success = false ∨
         (tripAccommodationSchema req.tripInfo).success = false ∨
         (healthSchema req.health).success = false) :
    (apiCreate req env).1.status = 400 ∧
    (apiCreate req env).1.body =
      .invalid ⟨(personalInfoSchema req.personalInfo).fieldErrors,
        (tripAccommodationSchema req.tripInfo).fieldErrors,
        (healthSchema req.health).fieldErrors⟩ ∧
    (apiCreate req env).1.body.success = false ∧
    (apiCreate req env).2 = [] := by
  rcases hPI : personalInfoSchema req.personalInfo with a | es <;>
    rcases hTR : tripAccommodationSchema req.tripInfo with b | fs <;>
      rcases hH : healthSchema req.health with c | gs <;>
        rw [apiCreate_eq, hPI, hTR, hH] <;>
          simp_all [ZRes.success, ZRes.fieldErrors, Body.success]

/-- Witness for claim 2 at a concrete request whose health section has an
empty country list. -/
theorem claim2_validation_fail_fast_witness :
    (healthSchema { countries_visited := JArr.arr [] }).success = false ∧
    (apiCreate { sampleReq with health := { countries_visited := JArr.arr [] } }
        sampleEnv).1.status = 400 ∧
    (apiCreate { sampleReq with health := { countries_visited := JArr.arr [] } }
        sampleEnv).2 = [] := by
  have h := claim2_validation_fail_fast
    { sampleReq with health := { countries_visited := JArr.arr [] } } sampleEnv
    (Or.inr (Or.inr (by decide)))
  exact ⟨by decide, h.1, h.2.2.2⟩

/-- C4: a not-found uniqueness lookup commits to the candidate at once, while
any other lookup failure is fatal at once; in both cases no further retry
attempt is consumed, whatever attempt budget remains. -/
theorem claim4_lookup_distinction (lookup : Nat → LookupRes) (rand : Nat → Fin 90000)
    (i fuel : Nat) (m : String) :
    (lookup i = .notFound →
      allocLoop lookup rand i (fuel + 1) =
        (.committed (genCandidate (rand i)), [.lookupCard (genCandidate (rand i))])) ∧
    (lookup i = .failure m →
      allocLoop lookup rand i (fuel + 1) =
        (.fatal ("Failed to verify arrival card number: " ++ m),
         [.lookupCard (genCandidate (rand i))])) :=
  ⟨allocLoop_notFound lookup rand i fuel, allocLoop_failure lookup rand i fuel m⟩

/-- Witness for claim 4 at concrete oracles: a not-found first lookup and a
failing first lookup, each with nine attempts of budget left. -/
theorem claim4_lookup_distinction_witness :
    allocLoop (fun _ => LookupRes.notFound) (fun _ => (⟨0, by decide⟩ : Fin 90000)) 0 10 =
      (.committed "10000", [.lookupCard "10000"]) ∧
    allocLoop (fun _ => LookupRes.failure "boom") (fun _ => (⟨0, by decide⟩ : Fin 90000)) 0 10 =
      (.fatal "Failed to verify arrival card number: boom", [.lookupCard "10000"]) := by
  constructor
  · have h := (claim4_lookup_distinction (fun _ => LookupRes.notFound)
      (fun _ => (⟨0, by decide⟩ : Fin 90000)) 0 9 "boom").1 rfl
    simpa using h
  · have h := (claim4_lookup_distinction (fun _ => LookupRes.failure "boom")
      (fun _ => (⟨0, by decide⟩ : Fin 90000)) 0 9 "boom").2 rfl
    simpa using h

/-- Branch equation: the profile insert fails. -/
theorem afterValidation_profile_err (env : Env) (pd : PersonalData) (td : TripData)
    (cs : List String) (m : String) (hp : env.profileRes = .error m) :
    afterValidation env pd td cs =
      (⟨500, .failed m⟩, [.insert "profiles" (.profile pd) none]) := by
  simp [afterValidation, hp]

/-- Branch equation: the travel insert fails after the profile insert
succeeded. -/
theorem afterValidation_travel_err (env : Env) (pd : PersonalData) (td : TripData)
    (cs : List String) (pid : Nat) (m : String)
    (hp : env.profileRes = .ok pid) (ht : env.travelRes = .error m) :
    afterValidation env pd td cs =
      (⟨500, .failed m⟩,
       [.insert "profiles" (.profile pd) (some pid),
        .insert "travel_information" (.travel ⟨td, cs⟩) none]) := by
  simp [afterValidation, hp, ht]

/-- Branch equation: allocation exhausts its attempt bound. -/
theorem afterValidation_exhausted (env : Env) (pd : PersonalData) (td : TripData)
    (cs : List String) (pid tid : Nat)
    (hp : env.profileRes = .ok pid) (ht : env.travelRes = .ok tid)
    (ha : (allocLoop env.lookup env.rand 0 10).1 = .exhausted) :
    afterValidation env pd td cs =
      (⟨500, .failed "Failed to generate unique arrival card number after maximum attempts"⟩,
       .insert "profiles" (.profile pd) (some pid) ::
       .insert "travel_information" (.travel ⟨td, cs⟩) (some tid) ::
       (allocLoop env.lookup env.rand 0 10).2) := by
  simp [afterValidation, hp, ht, ha]

/-- Branch equation: a uniqueness lookup failed fatally during allocation. -/
theorem afterValidation_fatal (env : Env) (pd : PersonalData) (td : TripData)
    (cs : List String) (pid tid : Nat) (m : String)
    (hp : env.profileRes = .ok pid) (ht : env.travelRes = .ok tid)
    (ha : (allocLoop env.lookup env.rand 0 10).1 = .fatal m) :
    afterValidation env pd td cs =
      (⟨500, .failed m⟩,
       .insert "profiles" (.profile pd) (some pid) ::
       .insert "travel_information" (.travel ⟨td, cs⟩) (some tid) ::
       (allocLoop env.lookup env.rand 0 10).2) := by
  simp [afterValidation, hp, ht, ha]

/-- Branch equation: the PDF upload fails. -/
theorem afterValidation_upload_err (env : Env) (pd : PersonalData) (td : TripData)
    (cs : List String) (pid tid : Nat) (card m : String)
    (hp : env.profileRes = .ok pid) (ht : env.travelRes = .ok tid)
    (ha : (allocLoop env.lookup env.rand 0 10).1 = .committed card)
    (hu : uploadAttempt env (env.uniqueId ++ ".pdf") = .error m) :
    afterValidation env pd td cs =
      (⟨500, .failed ("Failed to upload PDF: " ++ m)⟩,
       .insert "profiles" (.profile pd) (some pid) ::
       .insert "travel_information" (.travel ⟨td, cs⟩) (some tid) ::
       ((allocLoop env.lookup env.rand 0 10).2 ++
        [.render (renderDoc pd td card env.uniqueId (formatDate env.now)),
         .upload (env.uniqueId ++ ".pdf") false])) := by
  simp [afterValidation, hp, ht, ha, hu]

/-- Branch equation: the entry-form linkage insert fails after a successful
upload. -/
theorem afterValidation_entry_err (env : Env) (pd : PersonalData) (td : TripData)
    (cs : List String) (pid tid : Nat) (card m : String) (s : List String)
    (hp : env.profileRes = .ok pid) (ht : env.travelRes = .ok tid)
    (ha : (allocLoop env.lookup env.rand 0 10).1 = .committed card)
    (hu : uploadAttempt env (env.uniqueId ++ ".pdf") = .ok s)
    (he : env.entryRes = .error m) :
    afterValidation env pd td cs =
      (⟨500, .failed ("Failed to insert into database: " ++ m)⟩,
       .insert "profiles" (.profile pd) (some pid) ::
       .insert "travel_information" (.travel ⟨td, cs⟩) (some tid) ::
       ((allocLoop env.lookup env.rand 0 10).2 ++
        [.render (renderDoc pd td card env.uniqueId (formatDate env.now)),
         .upload (env.uniqueId ++ ".pdf") true,
         .insert "entry_form"
           (.entry ⟨pid, tid, env.publicUrlOf (env.uniqueId ++ ".pdf"),
             env.uniqueId, card⟩) none])) := by
  simp [afterValidation, hp, ht, ha, hu, he]

/-- Branch equation: the whole workflow completes. -/
theorem afterValidation_ok (env : Env) (pd : PersonalData) (td : TripData)
    (cs : List String) (pid tid eid : Nat) (card : String) (s : List String)
    (hp : env.profileRes = .ok pid) (ht : env.travelRes = .ok tid)
    (ha : (allocLoop env.lookup env.rand 0 10).1 = .committed card)
    (hu : uploadAttempt env (env.uniqueId ++ ".pdf") = .ok s)
    (he : env.entryRes = .ok eid) :
    afterValidation env pd td cs =
      (⟨200, .completed ⟨pid, pd⟩ ⟨tid, ⟨td, cs⟩⟩
         ⟨eid, ⟨pid, tid, env.publicUrlOf (env.uniqueId ++ ".pdf"), env.uniqueId, card⟩⟩
         env.uniqueId (env.publicUrlOf (env.uniqueId ++ ".pdf")) card⟩,
       .insert "profiles" (.profile pd) (some pid) ::
       .insert "travel_information" (.travel ⟨td, cs⟩) (some tid) ::
       ((allocLoop env.lookup env.rand 0 10).2 ++
        [.render (renderDoc pd td card env.uniqueId (formatDate env.now)),
         .upload (env.uniqueId ++ ".pdf") true,
         .insert "entry_form"
           (.entry ⟨pid, tid, env.publicUrlOf (env.uniqueId ++ ".pdf"),
             env.uniqueId, card⟩) (some eid)])) := by
  simp [afterValidation, hp, ht, ha, hu, he]

/-- Handler equation on a request all of whose sections validate. -/
theorem apiCreate_valid (req : Request) (env : Env) (pd : PersonalData)
    (td : TripData) (cs : List String)
    (hPI : personalInfoSchema req.personalInfo = .ok pd)
    (hTR : tripAccommodationSchema req.tripInfo = .ok td)
    (hH : healthSchema req.health = .ok cs) :
    apiCreate req env = afterValidation env pd td (rawCountries req.health) := by
  rw [apiCreate_eq, hPI, hTR, hH]

/-- Complete characterization of the events the post-validation workflow can
emit: the two leading inserts, allocation lookups, one render, one upload
under the identifier-derived key, and the entry-form insert, which only
occurs when both prior inserts succeeded and carries their identities. -/
theorem afterValidation_mem (env : Env) (pd : PersonalData) (td : TripData)
    (cs : List String) (e : Event) (he : e ∈ (afterValidation env pd td cs).2) :
    (∃ r, e = Event.insert "profiles" (.profile pd) r) ∨
    (∃ r, e = Event.insert "travel_information" (.travel ⟨td, cs⟩) r) ∨
    (∃ c, e = Event.lookupCard c) ∨
    (∃ d, e = Event.render d) ∨
    (∃ b, e = Event.upload (env.uniqueId ++ ".pdf") b) ∨
    (∃ fd r, e = Event.insert "entry_form" (.entry fd) r ∧
      ∃ pid tid, env.profileRes = .ok pid ∧ env.travelRes = .ok tid ∧
        fd.profile_id = pid ∧ fd.tr_id = tid) := by
  rcases hp : env.profileRes with m | pid
  · rw [afterValidation_profile_err env pd td cs m hp] at he
    simp only [List.mem_singleton] at he
    exact Or.inl ⟨none, he⟩
  · rcases ht : env.travelRes with m | tid
    · rw [afterValidation_travel_err env pd td cs pid m hp ht] at he
      simp only [List.mem_cons, List.mem_singleton, List.not_mem_nil, or_false] at he
      rcases he with h | h
      · exact Or.inl ⟨some pid, h⟩
      · exact Or.inr (Or.inl ⟨none, h⟩)
    · rcases ha : (allocLoop env.lookup env.rand 0 10).1 with card | _ | m
      · rcases hu : uploadAttempt env (env.uniqueId ++ ".pdf") with m | s
        · rw [afterValidation_upload_err env pd td cs pid tid card m hp ht ha hu] at he
          simp only [List.mem_cons, List.mem_append, List.mem_singleton,
            List.not_mem_nil, or_false] at he
          rcases he with h | h | h | h | h
          · exact Or.inl ⟨some pid, h⟩
          · exact Or.inr (Or.inl ⟨some tid, h⟩)
          · obtain ⟨c, hc⟩ := allocLoop_events env.lookup env.rand 10 0 e h
            exact Or.inr (Or.inr (Or.inl ⟨c, hc⟩))
          · exact Or.inr (Or.inr (Or.inr (Or.inl ⟨_, h⟩)))
          · exact Or.inr (Or.inr (Or.inr (Or.inr (Or.inl ⟨false, h⟩))))
        · rcases hent : env.entryRes with m | eid
          · rw [afterValidation_entry_err env pd td cs pid tid card m s hp ht ha hu hent] at he
            simp only [List.mem_cons, List.mem_append, List.mem_singleton,
              List.not_mem_nil, or_false] at he
            rcases he with h | h | h | h | h | h
            · exact Or.inl ⟨some pid, h⟩
            · exact Or.inr (Or.inl ⟨some tid, h⟩)
            · obtain ⟨c, hc⟩ := allocLoop_events env.lookup env.rand 10 0 e h
              exact Or.inr (Or.inr (Or.inl ⟨c, hc⟩))
            · exact Or.inr (Or.inr (Or.inr (Or.inl ⟨_, h⟩)))
            · exact Or.inr (Or.inr (Or.inr (Or.inr (Or.inl ⟨true, h⟩))))
            · exact Or.inr (Or.inr (Or.inr (Or.inr (Or.inr
                ⟨_, none, h, pid, tid, rfl, rfl, rfl, rfl⟩))))
          · rw [afterValidation_ok env pd td cs pid tid eid card s hp ht ha hu hent] at he
            simp only [List.mem_cons, List.mem_append, List.mem_singleton,
              List.not_mem_nil, or_false] at he
            rcases he with h | h | h | h | h | h
            · exact Or.inl ⟨some pid, h⟩
            · exact Or.inr (Or.inl ⟨some tid, h⟩)
            · obtain ⟨c, hc⟩ := allocLoop_events env.lookup env.rand 10 0 e h
              exact Or.inr (Or.inr (Or.inl ⟨c, hc⟩))
            · exact Or.inr (Or.inr (Or.inr (Or.inl ⟨_, h⟩)))
            · exact Or.inr (Or.inr (Or.inr (Or.inr (Or.inl ⟨true, h⟩))))
            · exact Or.inr (Or.inr (Or.inr (Or.inr (Or.inr
                ⟨_, some eid, h, pid, tid, rfl, rfl, rfl, rfl⟩))))
      · rw [afterValidation_exhausted env pd td cs pid tid hp ht ha] at he
        simp only [List.mem_cons] at he
        rcases he with h | h | h
        · exact Or.inl ⟨some pid, h⟩
        · exact Or.inr (Or.inl ⟨some tid, h⟩)
        · obtain ⟨c, hc⟩ := allocLoop_events env.lookup env.rand 10 0 e h
          exact Or.inr (Or.inr (Or.inl ⟨c, hc⟩))
      · rw [afterValidation_fatal env pd td cs pid tid m hp ht ha] at he
        simp only [List.mem_cons] at he
        rcases he with h | h | h
        · exact Or.inl ⟨some pid, h⟩
        · exact Or.inr (Or.inl ⟨some tid, h⟩)
        · obtain ⟨c, hc⟩ := allocLoop_events env.lookup env.rand 10 0 e h
          exact Or.inr (Or.inr (Or.inl ⟨c, hc⟩))

/-- C1: the allocator makes at most 10 attempts.  With an oracle reporting
the first nine candidates taken and the tenth free, allocation commits to the
tenth candidate after exactly ten lookups and the workflow completes; with an
oracle reporting every candidate taken, the handler answers 500 with the
allocation-exhausted message and neither renders nor uploads anything. -/
theorem claim1_bounded_retry (req : Request) (envA envB : Env)
    (personalData : PersonalData) (tripData : TripData) (countries : List String)
    (hPI : personalInfoSchema req.personalInfo = .ok personalData)
    (hTR : tripAccommodationSchema req.tripInfo = .ok tripData)
    (hH : healthSchema req.health = .ok countries)
    (pidA tidA eidA : Nat)
    (hpA : envA.profileRes = .ok pidA) (htA : envA.travelRes = .ok tidA)
    (heA : envA.entryRes = .ok eidA) (huA : envA.uploadOther = none)
    (hsA : envA.store.contains (envA.uniqueId ++ ".pdf") = false)
    (hlA : ∀ j, j < 9 → envA.lookup j = .found) (hlA9 : envA.lookup 9 = .notFound)
    (pidB tidB : Nat)
    (hpB : envB.profileRes = .ok pidB) (htB : envB.travelRes = .ok tidB)
    (hlB : ∀ j, envB.lookup j = .found) :
    ((allocLoop envA.lookup envA.rand 0 10).1 =
        .committed (genCandidate (envA.rand 9)) ∧
      (allocLoop envA.lookup envA.rand 0 10).2.length = 10 ∧
      (apiCreate req envA).1.status = 200) ∧
    ((apiCreate req envB).1 =
        ⟨500, .failed "Failed to generate unique arrival card number after maximum attempts"⟩ ∧
      (∀ d, Event.render d ∉ (apiCreate req envB).2) ∧
      (∀ k b, Event.upload k b ∉ (apiCreate req envB).2)) := by
  have hall := allocLoop_success_at envA.lookup envA.rand 9 0 10
    (fun j hj => by simpa using hlA j hj) (by simpa using hlA9) (by omega)
  have hcommit : (allocLoop envA.lookup envA.rand 0 10).1 =
      .committed (genCandidate (envA.rand 9)) := by simpa using hall.1
  have hup : uploadAttempt envA (envA.uniqueId ++ ".pdf") =
      .ok ((envA.uniqueId ++ ".pdf") :: envA.store) := by
    have hmem : envA.uniqueId ++ ".pdf" ∉ envA.store := by simpa using hsA
    simp [uploadAttempt, uploadPdf, huA, hmem]
  have hex := allocLoop_all_found envB.lookup envB.rand hlB 10 0
  have hB : apiCreate req envB =
      (⟨500, .failed "Failed to generate unique arrival card number after maximum attempts"⟩,
       .insert "profiles" (.profile personalData) (some pidB) ::
       .insert "travel_information"
         (.travel ⟨tripData, rawCountries req.health⟩) (some tidB) ::
       (allocLoop envB.lookup envB.rand 0 10).2) := by
    rw [apiCreate_valid req envB personalData tripData countries hPI hTR hH,
      afterValidation_exhausted envB personalData tripData (rawCountries req.health)
        pidB tidB hpB htB hex.1]
  refine ⟨⟨hcommit, by simpa using hall.2, ?_⟩, ?_, ?_, ?_⟩
  · rw [apiCreate_valid req envA personalData tripData countries hPI hTR hH,
      afterValidation_ok envA personalData tripData (rawCountries req.health)
        pidA tidA eidA (genCandidate (envA.rand 9)) _ hpA htA hcommit hup heA]
  · rw [hB]
  · intro d hd
    rw [hB] at hd
    simp only [List.mem_cons] at hd
    rcases hd with h | h | h
    · exact Event.noConfusion h
    · exact Event.noConfusion h
    · obtain ⟨c, hc⟩ := allocLoop_events envB.lookup envB.rand 10 0 _ h
      exact Event.noConfusion hc
  · intro k b hd
    rw [hB] at hd
    simp only [List.mem_cons] at hd
    rcases hd with h | h | h
    · exact Event.noConfusion h
    · exact Event.noConfusion h
    · obtain ⟨c, hc⟩ := allocLoop_events envB.lookup envB.rand 10 0 _ h
      exact Event.noConfusion hc

/-- Witness for claim 1 at the sample request with the two concrete oracles
of the spec's allocator property. -/
theorem claim1_bounded_retry_witness :
    ((allocLoop nineTakenEnv.lookup nineTakenEnv.rand 0 10).1 =
        .committed (genCandidate (nineTakenEnv.rand 9)) ∧
      (allocLoop nineTakenEnv.lookup nineTakenEnv.rand 0 10).2.length = 10 ∧
      (apiCreate sampleReq nineTakenEnv).1.status = 200) ∧
    ((apiCreate sampleReq allTakenEnv).1 =
        ⟨500, .failed "Failed to generate unique arrival card number after maximum attempts"⟩ ∧
      Event.render [] ∉ (apiCreate sampleReq allTakenEnv).2 ∧
      Event.upload "u1.pdf" true ∉ (apiCreate sampleReq allTakenEnv).2) := by
  have h := claim1_bounded_retry sampleReq nineTakenEnv allTakenEnv
    samplePersonal sampleTrip ["US"] (by decide) (by decide) (by decide)
    1 2 3 rfl rfl rfl rfl (by decide)
    (fun j hj => by simp [nineTakenEnv, sampleEnv, hj]) (by decide)
    1 2 rfl rfl (fun j => rfl)
  exact ⟨h.1, h.2.1, h.2.2.1 [], h.2.2.2 "u1.pdf" true⟩

/-- Environment whose profile insert fails. -/
def profileErrEnv : Env := { sampleEnv with profileRes := .error "profile boom" }

/-- Environment whose travel insert fails. -/
def travelErrEnv : Env := { sampleEnv with travelRes := .error "travel boom" }

/-- Environment whose entry-form insert fails. -/
def entryErrEnv : Env := { sampleEnv with entryRes := .error "entry boom" }

/-- C3: for a valid submission, a failing insert aborts the rest of the
workflow with a 500 response carrying the storage error text, the rows
inserted by earlier completed steps stay recorded as inserted, and no
compensating delete is ever performed. -/
theorem claim3_insert_failure_aborts (req : Request) (env : Env)
    (personalData : PersonalData) (tripData : TripData) (countries : List String)
    (hPI : personalInfoSchema req.personalInfo = .ok personalData)
    (hTR : tripAccommodationSchema req.tripInfo = .ok tripData)
    (hH : healthSchema req.health = .ok countries) :
    (∀ m, env.profileRes = .error m →
      (apiCreate req env).1 = ⟨500, .failed m⟩ ∧
      (apiCreate req env).2 = [.insert "profiles" (.profile personalData) none]) ∧
    (∀ m pid, env.profileRes = .ok pid → env.travelRes = .error m →
      (apiCreate req env).1 = ⟨500, .failed m⟩ ∧
      (apiCreate req env).2 =
        [.insert "profiles" (.profile personalData) (some pid),
         .insert "travel_information"
           (.travel ⟨tripData, rawCountries req.health⟩) none]) ∧
    (∀ m pid tid card s, env.profileRes = .ok pid → env.travelRes = .ok tid →
      (allocLoop env.lookup env.rand 0 10).1 = .committed card →
      uploadAttempt env (env.uniqueId ++ ".pdf") = .ok s →
      env.entryRes = .error m →
      (apiCreate req env).1 = ⟨500, .failed ("Failed to insert into database: " ++ m)⟩ ∧
      .insert "profiles" (.profile personalData) (some pid) ∈ (apiCreate req env).2 ∧
      .insert "travel_information" (.travel ⟨tripData, rawCountries req.health⟩) (some tid) ∈
        (apiCreate req env).2) ∧
    (∀ t i, Event.delRow t i ∉ (apiCreate req env).2) := by
  have hAV := apiCreate_valid req env personalData tripData countries hPI hTR hH
  refine ⟨?_, ?_, ?_, ?_⟩
  · intro m hm
    rw [hAV, afterValidation_profile_err env personalData tripData _ m hm]
    exact ⟨rfl, rfl⟩
  · intro m pid hp ht
    rw [hAV, afterValidation_travel_err env personalData tripData _ pid m hp ht]
    exact ⟨rfl, rfl⟩
  · intro m pid tid card s hp ht ha hu hent
    rw [hAV, afterValidation_entry_err env personalData tripData _ pid tid card m s
      hp ht ha hu hent]
    exact ⟨rfl, by simp, by simp⟩
  · intro t i hd
    rw [hAV] at hd
    rcases afterValidation_mem env personalData tripData _ _ hd with
      ⟨r, h⟩ | ⟨r, h⟩ | ⟨c, h⟩ | ⟨d, h⟩ | ⟨b, h⟩ | ⟨fd, r, h, _⟩ <;>
      exact Event.noConfusion h

/-- Witness for claim 3: a failing profile insert, a failing travel insert
after a persisted profile row, and a failing entry insert, each at the sample
request. -/
theorem claim3_insert_failure_aborts_witness :
    (apiCreate sampleReq profileErrEnv).1 = ⟨500, .failed "profile boom"⟩ ∧
    (apiCreate sampleReq travelErrEnv).1 = ⟨500, .failed "travel boom"⟩ ∧
    (apiCreate sampleReq travelErrEnv).2 =
      [.insert "profiles" (.profile samplePersonal) (some 1),
       .insert "travel_information" (.travel ⟨sampleTrip, ["US"]⟩) none] ∧
    (apiCreate sampleReq entryErrEnv).1 =
      ⟨500, .failed "Failed to insert into database: entry boom"⟩ ∧
    Event.delRow "profiles" 1 ∉ (apiCreate sampleReq travelErrEnv).2 := by
  have h1 := claim3_insert_failure_aborts sampleReq profileErrEnv
    samplePersonal sampleTrip ["US"] (by decide) (by decide) (by decide)
  have h2 := claim3_insert_failure_aborts sampleReq travelErrEnv
    samplePersonal sampleTrip ["US"] (by decide) (by decide) (by decide)
  have h3 := claim3_insert_failure_aborts sampleReq entryErrEnv
    samplePersonal sampleTrip ["US"] (by decide) (by decide) (by decide)
  refine ⟨(h1.1 "profile boom" rfl).1, (h2.2.1 "travel boom" 1 rfl rfl).1,
    ?_, (h3.2.2.1 "entry boom" 1 2 "10000" ["u1.pdf"] rfl rfl (by decide)
      rfl rfl).1, h2.2.2.2 "profiles" 1⟩
  have := (h2.2.1 "travel boom" 1 rfl rfl).2
  simpa using this

/-- Inversion of a completed workflow: a 200 response pins down every
collaborator outcome and the exact response and trace. -/
theorem apiCreate_success_shape (req : Request) (env : Env)
    (hs : (apiCreate req env).1.status = 200) :
    ∃ pd td cs pid tid eid card s,
      personalInfoSchema req.personalInfo = .ok pd ∧
      tripAccommodationSchema req.tripInfo = .ok td ∧
      healthSchema req.health = .ok cs ∧
      env.profileRes = .ok pid ∧ env.travelRes = .ok tid ∧
      (allocLoop env.lookup env.rand 0 10).1 = .committed card ∧
      uploadAttempt env (env.uniqueId ++ ".pdf") = .ok s ∧
      env.entryRes = .ok eid ∧
      apiCreate req env =
        (⟨200, .completed ⟨pid, pd⟩ ⟨tid, ⟨td, rawCountries req.health⟩⟩
           ⟨eid, ⟨pid, tid, env.publicUrlOf (env.uniqueId ++ ".pdf"), env.uniqueId, card⟩⟩
           env.uniqueId (env.publicUrlOf (env.uniqueId ++ ".pdf")) card⟩,
         .insert "profiles" (.profile pd) (some pid) ::
         .insert "travel_information" (.travel ⟨td, rawCountries req.health⟩) (some tid) ::
         ((allocLoop env.lookup env.rand 0 10).2 ++
          [.render (renderDoc pd td card env.uniqueId (formatDate env.now)),
           .upload (env.uniqueId ++ ".pdf") true,
           .insert "entry_form"
             (.entry ⟨pid, tid, env.publicUrlOf (env.uniqueId ++ ".pdf"),
               env.uniqueId, card⟩) (some eid)])) := by
  rcases hPI : personalInfoSchema req.personalInfo with pd | es <;>
    rcases hTR : tripAccommodationSchema req.tripInfo with td | fs <;>
      rcases hH : healthSchema req.health with cs | gs
  all_goals try (exfalso; rw [apiCreate_eq, hPI, hTR, hH] at hs; simp at hs; done)
  have hAV := apiCreate_valid req env pd td cs hPI hTR hH
  rw [hAV] at hs
  rcases hp : env.profileRes with m | pid
  · rw [afterValidation_profile_err env pd td _ m hp] at hs; simp at hs
  rcases ht : env.travelRes with m | tid
  · rw [afterValidation_travel_err env pd td _ pid m hp ht] at hs; simp at hs
  rcases ha : (allocLoop env.lookup env.rand 0 10).1 with card | _ | m
  case exhausted =>
    rw [afterValidation_exhausted env pd td _ pid tid hp ht ha] at hs; simp at hs
  case fatal =>
    rw [afterValidation_fatal env pd td _ pid tid m hp ht ha] at hs; simp at hs
  rcases hu : uploadAttempt env (env.uniqueId ++ ".pdf") with m | s
  · rw [afterValidation_upload_err env pd td _ pid tid card m hp ht ha hu] at hs
    simp at hs
  rcases hent : env.entryRes with m | eid
  · rw [afterValidation_entry_err env pd td _ pid tid card m s hp ht ha hu hent] at hs
    simp at hs
  refine ⟨pd, td, cs, pid, tid, eid, card, s, rfl, rfl, rfl, rfl, rfl, rfl, rfl, rfl, ?_⟩
  rw [hAV, afterValidation_ok env pd td _ pid tid eid card s hp ht ha hu hent]

/-- C5: a submission that completes the full workflow answers success true
with the persisted profile, travel and entry rows, the document identifier,
the public PDF URL and the allocated arrival-card number, and that number is
a five-digit numeric string in the range 10000 to 99999. -/
theorem claim5_success_response (req : Request) (env : Env)
    (hs : (apiCreate req env).1.status = 200) :
    ∃ profile travel entry,
      (apiCreate req env).1.body =
        .completed profile travel entry env.uniqueId
          (env.publicUrlOf (env.uniqueId ++ ".pdf")) entry.data.arrival_card_no ∧
      (apiCreate req env).1.body.success = true ∧
      entry.data.profile_id = profile.id ∧
      entry.data.tr_id = travel.id ∧
      entry.data.qrcode_data = env.uniqueId ∧
      entry.data.filepath = env.publicUrlOf (env.uniqueId ++ ".pdf") ∧
      ∃ n, entry.data.arrival_card_no = Nat.repr n ∧ 10000 ≤ n ∧ n ≤ 99999 ∧
        entry.data.arrival_card_no.length = 5 := by
  obtain ⟨pd, td, cs, pid, tid, eid, card, s, hPI, hTR, hH, hp, ht, ha, hu, hent, heq⟩ :=
    apiCreate_success_shape req env hs
  obtain ⟨j, hj⟩ := allocLoop_committed_shape env.lookup env.rand 10 0 card ha
  obtain ⟨n, hn, h1, h2, hl⟩ := genCandidate_shape (env.rand j)
  refine ⟨⟨pid, pd⟩, ⟨tid, ⟨td, rawCountries req.health⟩⟩,
    ⟨eid, ⟨pid, tid, env.publicUrlOf (env.uniqueId ++ ".pdf"), env.uniqueId, card⟩⟩,
    by rw [heq], by rw [heq]; rfl, rfl, rfl, rfl, rfl,
    n, hj.trans hn, h1, h2, by rw [show card = genCandidate (env.rand j) from hj]; exact hl⟩

/-- Witness for claim 5: the sample request in the all-success environment. -/
theorem claim5_success_response_witness :
    (apiCreate sampleReq sampleEnv).1.status = 200 ∧
    (apiCreate sampleReq sampleEnv).1.body.success = true ∧
    (∃ profile travel entry,
      (apiCreate sampleReq sampleEnv).1.body =
        .completed profile travel entry sampleEnv.uniqueId
          (sampleEnv.publicUrlOf (sampleEnv.uniqueId ++ ".pdf"))
          entry.data.arrival_card_no ∧
      ∃ n, entry.data.arrival_card_no = Nat.repr n ∧ 10000 ≤ n ∧ n ≤ 99999 ∧
        entry.data.arrival_card_no.length = 5) := by
  have h := claim5_success_response sampleReq sampleEnv (by decide)
  obtain ⟨p, t, e, h1, h2, _, _, _, _, hn⟩ := h
  exact ⟨by decide, h2, p, t, e, h1, hn⟩

/-- C7: every successful execution inserts PersonalProfile, then
TripAccommodation, then EntryForm, the entry row carrying the identities the
two earlier inserts returned; and an entry-form insert only ever happens
when both prior inserts succeeded. -/
theorem claim7_insert_order (req : Request) (env : Env) :
    ((apiCreate req env).1.status = 200 →
      ∃ pd travelData finalData pid tid eid lookEvs docItems,
        (apiCreate req env).2 =
          Event.insert "profiles" (.profile pd) (some pid) ::
          Event.insert "travel_information" (.travel travelData) (some tid) ::
          (lookEvs ++
           [Event.render docItems, Event.upload (env.uniqueId ++ ".pdf") true,
            Event.insert "entry_form" (.entry finalData) (some eid)]) ∧
        (∀ e ∈ lookEvs, ∃ c, e = Event.lookupCard c) ∧
        finalData.profile_id = pid ∧ finalData.tr_id = tid) ∧
    (∀ p r, Event.insert "entry_form" p r ∈ (apiCreate req env).2 →
      ∃ pid tid, env.profileRes = .ok pid ∧ env.travelRes = .ok tid) := by
  constructor
  · intro hs
    obtain ⟨pd, td, cs, pid, tid, eid, card, s, hPI, hTR, hH, hp, ht, ha, hu, hent, heq⟩ :=
      apiCreate_success_shape req env hs
    refine ⟨pd, ⟨td, rawCountries req.health⟩,
      ⟨pid, tid, env.publicUrlOf (env.uniqueId ++ ".pdf"), env.uniqueId, card⟩,
      pid, tid, eid, (allocLoop env.lookup env.rand 0 10).2,
      renderDoc pd td card env.uniqueId (formatDate env.now), ?_, ?_, rfl, rfl⟩
    · rw [heq]
    · exact fun e he => allocLoop_events env.lookup env.rand 10 0 e he
  · intro p r hmem
    rcases hPI : personalInfoSchema req.personalInfo with pd | es <;>
      rcases hTR : tripAccommodationSchema req.tripInfo with td | fs <;>
        rcases hH : healthSchema req.health with cs | gs
    all_goals try (exfalso; rw [apiCreate_eq, hPI, hTR, hH] at hmem; simp at hmem; done)
    rw [apiCreate_valid req env pd td cs hPI hTR hH] at hmem
    rcases afterValidation_mem env pd td _ _ hmem with
      ⟨r2, h⟩ | ⟨r2, h⟩ | ⟨c, h⟩ | ⟨d, h⟩ | ⟨b, h⟩ |
      ⟨fd, r2, h, pid, tid, hp, ht, hfd1, hfd2⟩
    · injection h with h1 h2 h3
      exact absurd h1 (by decide)
    · injection h with h1 h2 h3
      exact absurd h1 (by decide)
    · exact Event.noConfusion h
    · exact Event.noConfusion h
    · exact Event.noConfusion h
    · exact ⟨pid, tid, hp, ht⟩

/-- Witness for claim 7: the completed sample execution and a concrete
entry-form insert event in its trace. -/
theorem claim7_insert_order_witness :
    (apiCreate sampleReq sampleEnv).1.status = 200 ∧
    (∃ pd travelData finalData pid tid eid lookEvs docItems,
      (apiCreate sampleReq sampleEnv).2 =
        Event.insert "profiles" (.profile pd) (some pid) ::
        Event.insert "travel_information" (.travel travelData) (some tid) ::
        (lookEvs ++
         [Event.render docItems, Event.upload (sampleEnv.uniqueId ++ ".pdf") true,
          Event.insert "entry_form" (.entry finalData) (some eid)]) ∧
      (∀ e ∈ lookEvs, ∃ c, e = Event.lookupCard c) ∧
      finalData.profile_id = pid ∧ finalData.tr_id = tid) ∧
    (∃ pid tid, sampleEnv.profileRes = .ok pid ∧ sampleEnv.travelRes = .ok tid) := by
  have h1 := (claim7_insert_order sampleReq sampleEnv).1 (by decide)
  have h2 := (claim7_insert_order sampleReq sampleEnv).2
    (.entry ⟨1, 2, "https://cdn/u1.pdf", "u1", "10000"⟩) (some 3) (by decide)
  exact ⟨by decide, h1, h2⟩

/-- Environment whose object store already holds the sample key. -/
def dupStoreEnv : Env := { sampleEnv with store := ["u1.pdf"] }

/-- C6: the PDF is uploaded under the key derived from the document
identifier in upload-if-absent mode, so a second publication under the same
identifier is rejected instead of overwriting; and any upload failure is
fatal to the workflow: a 500 response, exactly one upload attempt, and no
entry-form linkage write. -/
theorem claim6_upload_no_overwrite (uid : String) (store store2 : List String)
    (h : uploadPdf store (uid ++ ".pdf") = .ok store2) :
    uploadPdf store2 (uid ++ ".pdf") = .error "The resource already exists" ∧
    (∀ req env pd td cs pid tid card m,
      personalInfoSchema req.personalInfo = .ok pd →
      tripAccommodationSchema req.tripInfo = .ok td →
      healthSchema req.health = .ok cs →
      env.profileRes = .ok pid → env.travelRes = .ok tid →
      (allocLoop env.lookup env.rand 0 10).1 = .committed card →
      uploadAttempt env (env.uniqueId ++ ".pdf") = .error m →
      (apiCreate req env).1 = ⟨500, .failed ("Failed to upload PDF: " ++ m)⟩ ∧
      ((apiCreate req env).2.filter fun e =>
        match e with | .upload _ _ => true | _ => false).length = 1 ∧
      (∀ p r, Event.insert "entry_form" p r ∉ (apiCreate req env).2)) := by
  constructor
  · unfold uploadPdf at h ⊢
    split at h
    · exact absurd h (by simp)
    · injection h with h2
      subst h2
      simp
  · intro req env pd td cs pid tid card m hPI hTR hH hp ht ha hu
    have htr := apiCreate_valid req env pd td cs hPI hTR hH
    rw [htr, afterValidation_upload_err env pd td _ pid tid card m hp ht ha hu]
    refine ⟨rfl, ?_, ?_⟩
    · have hz : ((allocLoop env.lookup env.rand 0 10).2.filter fun e =>
          match e with | .upload _ _ => true | _ => false) = [] := by
        rw [List.filter_eq_nil_iff]
        intro e he
        obtain ⟨c, hc⟩ := allocLoop_events env.lookup env.rand 10 0 e he
        subst hc
        simp
      simp [List.filter_cons, List.filter_append, hz]
    · intro p r hmem
      simp only [List.mem_cons, List.mem_append, List.mem_singleton,
        List.not_mem_nil, or_false] at hmem
      rcases hmem with h1 | h1 | h1 | h1 | h1
      · exact Event.noConfusion h1 fun h1 _ _ => absurd h1 (by decide)
      · exact Event.noConfusion h1 fun h1 _ _ => absurd h1 (by decide)
      · obtain ⟨c, hc⟩ := allocLoop_events env.lookup env.rand 10 0 _ h1
        exact Event.noConfusion hc
      · exact Event.noConfusion h1
      · exact Event.noConfusion h1

/-- Witness for claim 6: publishing the sample document twice, and the
workflow against a store that already holds the key. -/
theorem claim6_upload_no_overwrite_witness :
    uploadPdf [] ("u1" ++ ".pdf") = .ok ["u1.pdf"] ∧
    uploadPdf ["u1.pdf"] ("u1" ++ ".pdf") = .error "The resource already exists" ∧
    (apiCreate sampleReq dupStoreEnv).1 =
      ⟨500, .failed "Failed to upload PDF: The resource already exists"⟩ ∧
    ((apiCreate sampleReq dupStoreEnv).2.filter fun e =>
      match e with | .upload _ _ => true | _ => false).length = 1 ∧
    Event.insert "entry_form"
      (.entry ⟨1, 2, "https://cdn/u1.pdf", "u1", "10000"⟩) none ∉
      (apiCreate sampleReq dupStoreEnv).2 := by
  have h := claim6_upload_no_overwrite "u1" [] ["u1.pdf"] rfl
  have h2 := h.2 sampleReq dupStoreEnv samplePersonal sampleTrip ["US"] 1 2 "10000"
    "The resource already exists" (by decide) (by decide) (by decide) rfl rfl
    (by decide) rfl
  exact ⟨rfl, h.1, h2.1, h2.2.1, h2.2.2 _ none⟩

/-- Refinement target for claim 8, modelled from the spec's words: the
free-form address line is assembled into one string together with the
locality fields before the case transformation is applied. -/
def specAssembledAddress (tripData : TripData) : String :=
  jsToUpper (tripData.province ++ ", " ++ tripData.district_area ++ ", " ++
    tripData.sub_district ++ ", " ++ tripData.address)

/-- Counterexample to claim 8 as stated: at the sample input the rendered
address item is the upper-cased locality prefix followed by the raw address
line, which differs from the uniformly case-transformed assembled address
the claim describes (and is not upper-cased as a whole). -/
theorem claim8_uppercasing_counterexample :
    ((renderDoc samplePersonal sampleTrip "10000" "u1" "2024/6/1").filter
        (fun it => !(it.1 == "text" || it.1 == "image" || it.1 == "qr"))).getLast?
      = some ("Address :", "BANGKOK, PATHUMWAN, LUMPHINI, 123 Road") ∧
    "BANGKOK, PATHUMWAN, LUMPHINI, 123 Road" ≠ specAssembledAddress sampleTrip ∧
    specAssembledAddress sampleTrip = "BANGKOK, PATHUMWAN, LUMPHINI, 123 ROAD" ∧
    jsToUpper "BANGKOK, PATHUMWAN, LUMPHINI, 123 Road" ≠
      "BANGKOK, PATHUMWAN, LUMPHINI, 123 Road" := by
  refine ⟨by decide, by decide, by decide, by decide⟩

/-- C8 amended: in the rendered document the labeled textual field values are
upper-cased, except that the phone number and the postal code are rendered
verbatim and the free-form address line is appended verbatim after the case
transformation has been applied to the assembled locality prefix alone; the
summary-band values are upper-cased as well. -/
theorem claim8_uppercasing (pd : PersonalData) (td : TripData)
    (cardNo uid tx : String) :
    ((renderDoc pd td cardNo uid tx).filter
      (fun it => !(it.1 == "text" || it.1 == "image" || it.1 == "qr"))) =
    [("Full Name ", jsToUpper (jsTrim (pd.first_name ++ " " ++
        (pd.middle_name.getD "") ++ " " ++ pd.family_name))),
     ("Gender :", jsToUpper pd.gender),
     ("Nationality/Citizenship :", jsToUpper pd.selected_nationality),
     ("Passport No. :", jsToUpper pd.passport_no),
     ("Date of Birth :", formatDate pd.date_of_birth),
     ("Occupation :", jsToUpper pd.occupation),
     ("Country/Territory of Residence :", jsToUpper pd.selected_country),
     ("City/State of Residence :", jsToUpper pd.selected_city),
     ("Visa No. :", jsToUpper (pd.visa_no.getD "-")),
     ("Phone No. :", "+" ++ pd.phone_no_code ++ " " ++ pd.phone_no),
     ("Date of Arrival :", formatDate td.date_of_arrival),
     ("Country Boarded :", jsToUpper td.country_boarded),
     ("Purpose of Travel :", jsToUpper td.purpose_of_travel),
     ("Mode of Travel :", jsToUpper td.mode_of_travel_arrival),
     ("Mode of Transport :", jsToUpper td.mode_of_transport_arrival),
     ("Flight No./Vehicle No. :", jsToUpper td.flight_vehicle_no_arrival),
     ("Date of Departure :", formatDateOpt td.date_of_departure),
     ("Mode of Travel :", jsToUpper (td.mode_of_travel_departure.getD "-")),
     ("Mode of Transport :", jsToUpper (td.mode_of_transport_departure.getD "-")),
     ("Flight No./Vehicle No. :", jsToUpper (td.flight_vehicle_no_departure.getD "-")),
     ("Type of Accommodation :", jsToUpper td.type_of_accommodation),
     ("Post Code :", td.post_code),
     ("Address :", jsToUpper (td.province ++ ", " ++ td.district_area ++ ", " ++
        td.sub_district ++ ", ") ++ td.address)] ∧
    ("text", jsToUpper cardNo) ∈ renderDoc pd td cardNo uid tx ∧
    ("text", jsToUpper pd.passport_no) ∈ renderDoc pd td cardNo uid tx ∧
    ("text", jsToUpper td.flight_vehicle_no_arrival) ∈ renderDoc pd td cardNo uid tx ∧
    ("text", jsToUpper (jsTrim (pd.first_name ++ " " ++ pd.family_name))) ∈
      renderDoc pd td cardNo uid tx := by
  refine ⟨rfl, ?_, ?_, ?_, ?_⟩ <;> simp [renderDoc]

/-- C9: date fields render as the dash when absent (undefined, null or the
empty string) and as year/month/day without zero padding when present, and
the three date items of the document are exactly these renderings of the
birth, arrival and departure dates. -/
theorem claim9_date_rendering (pd : PersonalData) (td : TripData)
    (cardNo uid tx : String) :
    formatDate "" = "-" ∧
    formatDateOpt none = "-" ∧
    (∀ s y m d, parseDate s = some (y, m, d) →
      formatDate s = Nat.repr y ++ "/" ++ Nat.repr m ++ "/" ++ Nat.repr d) ∧
    ("Date of Birth :", formatDate pd.date_of_birth) ∈ renderDoc pd td cardNo uid tx ∧
    ("Date of Arrival :", formatDate td.date_of_arrival) ∈ renderDoc pd td cardNo uid tx ∧
    ("Date of Departure :", formatDateOpt td.date_of_departure) ∈
      renderDoc pd td cardNo uid tx := by
  refine ⟨rfl, rfl, ?_, by simp [renderDoc], by simp [renderDoc], by simp [renderDoc]⟩
  intro s y m d hp
  have hs : ¬(s = "") := by
    intro hs
    subst hs
    exact Option.noConfusion (hp.symm.trans (show parseDate "" = none from rfl))
  rw [formatDate, if_neg hs, hp]

/-- Witness for claim 9: the sample birth date renders without zero padding
and the absent departure date renders as the dash. -/
theorem claim9_date_rendering_witness :
    parseDate "1990-05-01" = some (1990, 5, 1) ∧
    formatDate "1990-05-01" = Nat.repr 1990 ++ "/" ++ Nat.repr 5 ++ "/" ++ Nat.repr 1 ∧
    formatDate "" = "-" ∧
    ("Date of Departure :", formatDateOpt sampleTrip.date_of_departure) ∈
      renderDoc samplePersonal sampleTrip "10000" "u1" "2024/6/1" ∧
    formatDateOpt sampleTrip.date_of_departure = "-" := by
  have h := claim9_date_rendering samplePersonal sampleTrip "10000" "u1" "2024/6/1"
  exact ⟨by decide, h.2.2.1 "1990-05-01" 1990 5 1 (by decide), h.1,
    h.2.2.2.2.2, by decide⟩

/-- C10: for a valid submission the travel_information row is exactly the
validated trip record extended with the countries_visited list read off the
raw health section (which coincides with the validated health output), and
the only tables ever written are profiles, travel_information and
entry_form — the health declaration is not persisted as its own entity. -/
theorem claim10_travel_row (req : Request) (env : Env)
    (pd : PersonalData) (td : TripData) (cs : List String)
    (hPI : personalInfoSchema req.personalInfo = .ok pd)
    (hTR : tripAccommodationSchema req.tripInfo = .ok td)
    (hH : healthSchema req.health = .ok cs) :
    (∀ p r, Event.insert "travel_information" p r ∈ (apiCreate req env).2 →
      p = .travel ⟨td, rawCountries req.health⟩) ∧
    rawCountries req.health = cs ∧
    (∀ t p r, Event.insert t p r ∈ (apiCreate req env).2 →
      t = "profiles" ∨ t = "travel_information" ∨ t = "entry_form") := by
  have hAV := apiCreate_valid req env pd td cs hPI hTR hH
  refine ⟨?_, ?_, ?_⟩
  · intro p r hmem
    rw [hAV] at hmem
    rcases afterValidation_mem env pd td _ _ hmem with
      ⟨r2, h⟩ | ⟨r2, h⟩ | ⟨c, h⟩ | ⟨d, h⟩ | ⟨b, h⟩ | ⟨fd, r2, h, _⟩
    · exact Event.noConfusion h fun h1 _ _ => absurd h1 (by decide)
    · exact Event.noConfusion h fun _ h2 _ => h2
    · exact Event.noConfusion h
    · exact Event.noConfusion h
    · exact Event.noConfusion h
    · exact Event.noConfusion h fun h1 _ _ => absurd h1 (by decide)
  · rcases hraw : req.health.countries_visited with _ | _ | l
    · simp [healthSchema, hraw] at hH
    · simp [healthSchema, hraw] at hH
    · simp only [healthSchema, hraw] at hH
      split at hH
      · exact ZRes.noConfusion hH
      · injection hH with h2
        simp [rawCountries, hraw, h2]
  · intro t p r hmem
    rw [hAV] at hmem
    rcases afterValidation_mem env pd td _ _ hmem with
      ⟨r2, h⟩ | ⟨r2, h⟩ | ⟨c, h⟩ | ⟨d, h⟩ | ⟨b, h⟩ | ⟨fd, r2, h, _⟩
    · exact Or.inl (Event.noConfusion h fun h1 _ _ => h1)
    · exact Or.inr (Or.inl (Event.noConfusion h fun h1 _ _ => h1))
    · exact Event.noConfusion h
    · exact Event.noConfusion h
    · exact Event.noConfusion h
    · exact Or.inr (Or.inr (Event.noConfusion h fun h1 _ _ => h1))

/-- Witness for claim 10 at the sample submission. -/
theorem claim10_travel_row_witness :
    rawCountries sampleReq.health = ["US"] ∧
    Payload.travel ⟨sampleTrip, ["US"]⟩ =
      .travel ⟨sampleTrip, rawCountries sampleReq.health⟩ ∧
    ("travel_information" = "profiles" ∨ "travel_information" = "travel_information" ∨
      "travel_information" = "entry_form") := by
  have h := claim10_travel_row sampleReq sampleEnv samplePersonal sampleTrip ["US"]
    (by decide) (by decide) (by decide)
  exact ⟨h.2.1,
    h.1 (.travel ⟨sampleTrip, ["US"]⟩) (some 2) (by decide),
    h.2.2 "travel_information" (.travel ⟨sampleTrip, ["US"]⟩) (some 2) (by decide)⟩

end ArrivalApp
